import Mathlib

/-!
Shallow embedding of the print-calibration pattern generator
(`calibration.py`) of the silhouette-card-maker repository, together with
theorems checking its natural-language specification.

Conventions of the embedding:
* Python integers are `Nat`/`Int`; Python `math.floor(a / b)` on
  non-negative ints is `Nat` division, on possibly-negative ints it is
  `Int.ediv` (floor division for a positive divisor, matching Python `//`
  and `math.floor`); Python `%` with positive divisor is `Int.emod`.
* The half-pixel start coordinates (the `.5` factors in the source) are
  exact, so positions are rationals (`ℚ`).
* The raised exception is an `Except.error` carrying the formatted
  message string of the source.
* Drawing is modelled as the chronological list of draw calls issued on a
  surface; the PDF save call is modelled by the record of pages and encode
  parameters it receives, and the filesystem as a map from paths to saved
  documents.
-/

namespace Calibration

/-- A raster image: oriented pixel dimensions plus an abstract content tag
(the template pixels themselves play no role in the geometry). -/
structure Image where
  width : Nat
  height : Nat
  data : Nat
deriving Repr, DecidableEq

/-- `im.rotate(90, expand=True)`: width and height swap. -/
def rotate90 (im : Image) : Image :=
  { width := im.height, height := im.width, data := im.data }

/-- Lines 24–28 of the source: ensure landscape orientation. -/
def orient (im : Image) : Image :=
  if im.height > im.width then rotate90 im else im

/-- Modelled from the spec: the repository's `utilities.PaperSize`
enumeration is not among the provided sources. Per the spec it is "an
enumerated identifier, each bound to a template asset path and an output
filename stem"; `value` is that identifier (the `paper_size.value` string
of the source). -/
structure PaperSize where
  value : String
deriving Repr, DecidableEq

/-- Source line 41: `test_size = 25`, side of each square marker. -/
def test_size : Nat := 25

/-- Source line 42: `test_half_size = math.floor(test_size / 2)`. -/
def test_half_size : Nat := test_size / 2

/-- Source line 43: `test_distance = 75`, spacing between markers. -/
def test_distance : Nat := 75

/-- Source lines 47 and 50:
`matrix_size = math.floor(dimension / (test_size + test_distance)) - 6`. -/
def matrix_size (dimension : Nat) : Int :=
  ((dimension / (test_size + test_distance) : Nat) : Int) - 6

/-- Source lines 48 and 51: `matrix_half_size = math.floor(matrix_size / 2)`
(Python floor division; Lean's `Int` division is Euclidean division, which
agrees with flooring for the positive divisor 2). -/
def matrix_half_size (m : Int) : Int := m / 2

/-- `math.floor(dimension / 2)` of source lines 57, 61, 65, 69. -/
def page_center (dimension : Nat) : Nat := dimension / 2

/-- The exception message of source lines 60 and 68. -/
def err_msg (m : Int) : String :=
  "matrix_size must be greater than 0; received: " ++ toString m

/-- Source lines 55–69, one axis: the start coordinate of the marker grid,
or the raised exception. The odd branch is taken when `matrix_size % 2 > 0`
(Python `%`, so also for negative odd counts); the `matrix_size <= 0` guard
sits inside the even branch only, exactly as in the source. -/
def start_axis (dimension : Nat) : Except String ℚ :=
  if matrix_size dimension % 2 > 0 then
    Except.ok ((page_center dimension : ℚ)
      - (matrix_half_size (matrix_size dimension) : ℚ) * (test_distance : ℚ)
      - ((matrix_half_size (matrix_size dimension) : ℚ) + 1/2) * (test_size : ℚ))
  else if matrix_size dimension ≤ 0 then
    Except.error (err_msg (matrix_size dimension))
  else
    Except.ok ((page_center dimension : ℚ)
      - ((matrix_half_size (matrix_size dimension) : ℚ) - 1/2) * (test_distance : ℚ)
      - (matrix_half_size (matrix_size dimension) : ℚ) * (test_size : ℚ))

/-- The grid geometry the script computes for one page (§3 of the spec:
MarkerGrid). -/
structure MarkerGrid where
  columns : Int
  rows : Int
  half_columns : Int
  half_rows : Int
  start_x : ℚ
  start_y : ℚ
deriving Repr, DecidableEq

/-- Source lines 45–69 assembled: counts, halves and both start
coordinates (the x guard fires before the y guard, as in the source). -/
def plan (print_width print_height : Nat) : Except String MarkerGrid :=
  match start_axis print_width with
  | Except.error e => Except.error e
  | Except.ok sx =>
    match start_axis print_height with
    | Except.error e => Except.error e
    | Except.ok sy =>
      Except.ok
        { columns := matrix_size print_width
          rows := matrix_size print_height
          half_columns := matrix_half_size (matrix_size print_width)
          half_rows := matrix_half_size (matrix_size print_height)
          start_x := sx
          start_y := sy }

/-- A fill colour: a named colour string or an RGB triple, as passed to the
drawing calls of the source. -/
inductive Color where
  | named (s : String)
  | rgb (r g b : Nat)
deriving Repr, DecidableEq

/-- One drawing call issued on a surface. -/
inductive DrawOp where
  | rect (x0 y0 x1 y1 : ℚ) (fill : Color)
  | text (x y : ℚ) (s : String) (fill : Color) (anchor : String) (fontSize : Nat)
deriving Repr, DecidableEq

/-- The fill colour a draw call carries. -/
def DrawOp.fillOf : DrawOp → Color
  | DrawOp.rect _ _ _ _ f => f
  | DrawOp.text _ _ _ f _ _ => f

/-- Source lines 75–80: front marker position on one axis,
`start + index * (test_distance + test_size)`. -/
def front_element (start : ℚ) (index : Int) : ℚ :=
  start + (index : ℚ) * ((test_distance : ℚ) + (test_size : ℚ))

/-- Source lines 93–94: back marker position on one axis,
`front_element + index - matrix_half_size`. -/
def back_element (start : ℚ) (index half : Int) : ℚ :=
  front_element start index + ((index : ℚ) - (half : ℚ))

/-- Source lines 84–86: blue on the centre cross-hairs, black elsewhere. -/
def marker_fill (x_index y_index half_x half_y : Int) : Color :=
  if x_index = half_x ∨ y_index = half_y then Color.named ("blue")
  else Color.named ("black")

/-- Python `range(m)` as the list of indices (empty when `m ≤ 0`). -/
def indexRange (m : Int) : List Int :=
  (List.range m.toNat).map Int.ofNat

/-- The loop's index pairs, outer `x_index`, inner `y_index`
(source lines 72–73). -/
def gridCells (g : MarkerGrid) : List (Int × Int) :=
  (indexRange g.columns).flatMap
    (fun x => (indexRange g.rows).map (fun y => (x, y)))

/-- Source lines 79–88: the rectangle drawn on the front page for one
grid cell. -/
def front_marker_op (g : MarkerGrid) (x_index y_index : Int) : DrawOp :=
  let fx := front_element g.start_x x_index
  let fy := front_element g.start_y y_index
  DrawOp.rect fx fy (fx + (test_size : ℚ)) (fy + (test_size : ℚ))
    (marker_fill x_index y_index g.half_columns g.half_rows)

/-- Source lines 99–103: the text label under a back marker,
`f'({dx}, {dy})'`. -/
def coord_label (dx dy : Int) : String :=
  "(" ++ toString dx ++ ", " ++ toString dy ++ ")"

/-- Source lines 90–103: the rectangle and coordinate label drawn on the
back page for one grid cell. -/
def back_marker_ops (g : MarkerGrid) (x_index y_index : Int) : List DrawOp :=
  let bx := back_element g.start_x x_index g.half_columns
  let bv := back_element g.start_y y_index g.half_rows
  [DrawOp.rect bx bv (bx + (test_size : ℚ)) (bv + (test_size : ℚ))
      (marker_fill x_index y_index g.half_columns g.half_rows),
   DrawOp.text (bx + (test_half_size : ℚ)) (bv + (test_half_size : ℚ) + 30)
      (coord_label (x_index - g.half_columns) (y_index - g.half_rows))
      (Color.named ("red")) ("mm") 25]

/-- All front-page marker rectangles, in draw order. -/
def front_ops (g : MarkerGrid) : List DrawOp :=
  (gridCells g).flatMap (fun c => [front_marker_op g c.1 c.2])

/-- All back-page marker rectangles and labels, in draw order. -/
def back_ops (g : MarkerGrid) : List DrawOp :=
  (gridCells g).flatMap (fun c => back_marker_ops g c.1 c.2)

/-- Source lines 33 and 38: the corner label text drawn at
`(width - 180, height - 180)`, fill `(0, 0, 0)`, anchor `ra`, font 40. -/
def page_label_op (w h : Nat) (s : String) : DrawOp :=
  DrawOp.text ((w : ℚ) - 180) ((h : ℚ) - 180) s (Color.rgb 0 0 0) ("ra") 40

/-- A drawing surface: the copied base template plus the draw calls issued
on it, chronologically. -/
structure Surface where
  base : Image
  ops : List DrawOp
deriving Repr, DecidableEq

/-- The fully drawn front page for an oriented template and grid. -/
def front_surface (im : Image) (g : MarkerGrid) : Surface :=
  { base := im, ops := page_label_op im.width im.height ("front") :: front_ops g }

/-- The fully drawn back page (before the 180° rotation). -/
def back_surface (im : Image) (g : MarkerGrid) : Surface :=
  { base := im, ops := page_label_op im.width im.height ("back") :: back_ops g }

/-- A page of the output document: a surface as drawn, or rotated 180°
(`back_image.rotate(180)` of source line 108). -/
inductive PageOut where
  | plain (s : Surface)
  | rotated180 (s : Surface)
deriving Repr, DecidableEq

/-- The saved document: the page list and the encode parameters of the
save call on source line 110. -/
structure Document where
  pages : List PageOut
  resolution : Nat
  subsampling : Nat
  quality : Nat
deriving Repr, DecidableEq

/-- One iteration of the per-paper-size loop (source lines 11–110) for an
already loaded template: orient, plan, render both pages, compose; yields
the output path and document, or the raised exception. -/
def process (ps : PaperSize) (template : Image) : Except String (String × Document) :=
  match plan (orient template).width (orient template).height with
  | Except.error e => Except.error e
  | Except.ok g =>
    Except.ok ("calibration/" ++ ps.value ++ "_calibration.pdf",
      { pages := [PageOut.plain (front_surface (orient template) g),
                  PageOut.rotated180 (back_surface (orient template) g)]
        resolution := 300
        subsampling := 0
        quality := 100 })

/-- The filesystem under the `calibration/` output scheme: which document,
if any, each path holds. -/
def FileSystem : Type := String → Option Document

/-- Saving a document to a path: the file at that path is replaced,
everything else is untouched. -/
def save (fs : FileSystem) (path : String) (d : Document) : FileSystem :=
  fun p => if p = path then some d else fs p

/-- The whole batch: process paper sizes in order, saving each output;
the first raised exception aborts the run (unhandled, as in the script). -/
def run_all (sizes : List PaperSize) (assets : PaperSize → Image)
    (fs : FileSystem) : Except String FileSystem :=
  match sizes with
  | [] => Except.ok fs
  | ps :: rest =>
    match process ps (assets ps) with
    | Except.error e => Except.error e
    | Except.ok pd => run_all rest assets (save fs pd.1 pd.2)

/-- The ambient state a run of the script could in principle observe:
the configured sizes and template assets, the font asset, and the
system clock and entropy source. -/
structure Env where
  sizes : List PaperSize
  assets : PaperSize → Image
  font_data : Nat
  time : Nat
  rng : Nat

/-- A full run of the generator in an environment. -/
def run_env (e : Env) (fs : FileSystem) : Except String FileSystem :=
  run_all e.sizes e.assets fs

/-! ### Spec-side formulas (GridPlanner contract, §4.1 of the spec) -/

/-- Spec formula: `count_axis = floor(dimension / (marker_size + spacing)) -
margin_slots`. -/
def count_axis_spec (dimension marker_size spacing margin_slots : Nat) : Int :=
  ((dimension / (marker_size + spacing) : Nat) : Int) - (margin_slots : Int)

/-- Spec formula: `half = floor(count_axis / 2)`. -/
def half_spec (count : Int) : Int := count / 2

/-- Spec formula, odd count:
`start = page_center − half*spacing − (half+0.5)*marker_size`. -/
def start_odd_spec (dimension marker_size spacing : Nat) (half : Int) : ℚ :=
  ((dimension / 2 : Nat) : ℚ) - (half : ℚ) * (spacing : ℚ)
    - ((half : ℚ) + 1/2) * (marker_size : ℚ)

/-- Spec formula, even count:
`start = page_center − (half−0.5)*spacing − half*marker_size`. -/
def start_even_spec (dimension marker_size spacing : Nat) (half : Int) : ℚ :=
  ((dimension / 2 : Nat) : ℚ) - ((half : ℚ) - 1/2) * (spacing : ℚ)
    - (half : ℚ) * (marker_size : ℚ)

/-! ### Shared concrete instances used by witnesses -/

/-- A concrete paper size used in concrete evaluations. -/
def letter_ps : PaperSize := { value := "letter" }

/-- A 700×700 template: already landscape, and the planner yields the
smallest non-trivial grid (1 column, 1 row). -/
def square_template : Image := { width := 700, height := 700, data := 0 }

/-- The grid the planner computes for the 700×700 template. -/
def square_grid : MarkerGrid :=
  { columns := 1, rows := 1, half_columns := 0, half_rows := 0,
    start_x := (675 : ℚ)/2, start_y := (675 : ℚ)/2 }

/-- An empty filesystem. -/
def empty_fs : FileSystem := fun _ => none

/-! ### Helper lemmas -/

/-- When `start_axis` succeeds, the count is odd and the start is the odd
spec formula, or the count is even, positive, and the start is the even
spec formula. -/
theorem start_axis_ok_cases (d : Nat) (s : ℚ) (h : start_axis d = Except.ok s) :
    (matrix_size d % 2 = 1 ∧
      s = start_odd_spec d test_size test_distance (matrix_half_size (matrix_size d))) ∨
    (matrix_size d % 2 = 0 ∧ 0 < matrix_size d ∧
      s = start_even_spec d test_size test_distance (matrix_half_size (matrix_size d))) := by
  unfold start_axis at h
  split at h
  · rename_i hodd
    left
    refine ⟨by omega, ?_⟩
    cases h
    rfl
  · rename_i hodd
    split at h
    · cases h
    · rename_i hpos
      right
      refine ⟨by omega, by omega, ?_⟩
      cases h
      rfl

/-- Inversion for `plan`: the grid's fields in terms of the axis
computations. -/
theorem plan_ok_fields (w h : Nat) (g : MarkerGrid)
    (hp : plan w h = Except.ok g) :
    g.columns = matrix_size w ∧ g.rows = matrix_size h ∧
    g.half_columns = matrix_half_size (matrix_size w) ∧
    g.half_rows = matrix_half_size (matrix_size h) ∧
    start_axis w = Except.ok g.start_x ∧ start_axis h = Except.ok g.start_y := by
  unfold plan at hp
  cases hw : start_axis w with
  | error e => rw [hw] at hp; cases hp
  | ok sx =>
    rw [hw] at hp
    cases hh : start_axis h with
    | error e => rw [hh] at hp; cases hp
    | ok sy =>
      rw [hh] at hp
      cases hp
      exact ⟨rfl, rfl, rfl, rfl, rfl, rfl⟩

/-- Concrete evaluation: on a 700-pixel axis the count is 1 (odd) and the
start coordinate is 337.5. -/
theorem start_axis_700 : start_axis 700 = Except.ok ((675 : ℚ)/2) := by
  unfold start_axis
  norm_num [matrix_size, matrix_half_size, page_center, test_size, test_distance]

/-- Concrete evaluation: on a 1000-pixel axis the count is 4 (even) and the
start coordinate is 337.5. -/
theorem start_axis_1000 : start_axis 1000 = Except.ok ((675 : ℚ)/2) := by
  unfold start_axis
  norm_num [matrix_size, matrix_half_size, page_center, test_size, test_distance]

/-- Concrete evaluation of the planner on the 700×700 template. -/
theorem plan_700_700 : plan 700 700 = Except.ok square_grid := by
  unfold plan
  rw [start_axis_700]
  rfl

/-- The document the script composes for the 700×700 template. -/
def square_doc : Document :=
  { pages := [PageOut.plain (front_surface (orient square_template) square_grid),
              PageOut.rotated180 (back_surface (orient square_template) square_grid)]
    resolution := 300
    subsampling := 0
    quality := 100 }

/-- Concrete evaluation of one loop iteration on the 700×700 template. -/
theorem process_square_eval :
    process letter_ps square_template
      = Except.ok ("calibration/letter_calibration.pdf", square_doc) := by
  have hw : (orient square_template).width = 700 := rfl
  have hh : (orient square_template).height = 700 := rfl
  unfold process
  rw [hw, hh, plan_700_700]
  rfl

/-! ### Claim theorems -/

/-- C10: the back-page markers form a uniform grid of pitch
`marker_size + spacing + 1 = 101` pixels per axis (the front pitch is
100), the front/back divergence grows by exactly 1 pixel per index step,
and the back grid coincides with the front grid at the centre index. -/
theorem back_grid_pitch (start : ℚ) (half i : Int) :
    ((test_size + test_distance + 1 : Nat) : ℚ) = 101 ∧
    back_element start (i + 1) half - back_element start i half = 101 ∧
    front_element start (i + 1) - front_element start i = 100 ∧
    (back_element start (i + 1) half - front_element start (i + 1))
      - (back_element start i half - front_element start i) = 1 ∧
    back_element start half half = front_element start half := by
  unfold back_element front_element test_size test_distance
  refine ⟨by norm_num, ?_, ?_, ?_, ?_⟩ <;> push_cast <;> ring

/-- C9: a full run never consults the clock or the entropy source: two
runs in environments that agree on the paper sizes and the template and
font assets produce identical filesystem outcomes. -/
theorem run_deterministic (sizes : List PaperSize) (assets : PaperSize → Image)
    (fd t1 r1 t2 r2 : Nat) (fs : FileSystem) :
    run_env { sizes := sizes, assets := assets, font_data := fd, time := t1, rng := r1 } fs
      = run_env { sizes := sizes, assets := assets, font_data := fd, time := t2, rng := r2 } fs :=
  rfl

/-- C6: a marker is drawn in the accent colour (blue) exactly when its
column is the centre column or its row is the centre row, in the base
colour (black) otherwise, and the back-page rectangle always carries the
same fill as the front-page rectangle (the extra back-page text is red). -/
theorem crosshair_color (g : MarkerGrid) (c r : Int) :
    ((front_marker_op g c r).fillOf = Color.named ("blue")
      ↔ (c = g.half_columns ∨ r = g.half_rows)) ∧
    ((front_marker_op g c r).fillOf = Color.named ("black")
      ↔ ¬(c = g.half_columns ∨ r = g.half_rows)) ∧
    (back_marker_ops g c r).map DrawOp.fillOf
      = [(front_marker_op g c r).fillOf, Color.named ("red")] := by
  by_cases hx : c = g.half_columns ∨ r = g.half_rows
  · simp [front_marker_op, back_marker_ops, marker_fill, DrawOp.fillOf, hx]
  · simp [front_marker_op, back_marker_ops, marker_fill, DrawOp.fillOf, hx]

/-- C4: on a 1000×700 page the planner yields 4 columns (even) and 1 row
(odd); `start_x` equals the even-branch spec formula and `start_y` the
odd-branch spec formula, the opposite branches giving different values,
so the parity branches are selected independently per axis. -/
theorem scenario_a :
    plan 1000 700 = Except.ok
      { columns := 4
        rows := 1
        half_columns := 2
        half_rows := 0
        start_x := (675 : ℚ)/2
        start_y := (675 : ℚ)/2 } ∧
    matrix_size 1000 % 2 = 0 ∧ matrix_size 700 % 2 = 1 ∧
    start_even_spec 1000 test_size test_distance 2 = (675 : ℚ)/2 ∧
    start_odd_spec 700 test_size test_distance 0 = (675 : ℚ)/2 ∧
    start_odd_spec 1000 test_size test_distance 2
      ≠ start_even_spec 1000 test_size test_distance 2 ∧
    start_even_spec 700 test_size test_distance 0
      ≠ start_odd_spec 700 test_size test_distance 0 := by
  refine ⟨?_, by decide, by decide, ?_, ?_, ?_, ?_⟩
  · unfold plan
    rw [start_axis_1000, start_axis_700]
    rfl
  · norm_num [start_even_spec, test_size, test_distance]
  · norm_num [start_odd_spec, test_size, test_distance]
  · norm_num [start_odd_spec, start_even_spec, test_size, test_distance]
  · norm_num [start_odd_spec, start_even_spec, test_size, test_distance]

/-- C1: for each axis independently the planner computes
`count = floor(dimension / (marker_size + spacing)) - 6`,
`half = floor(count / 2)`, and the start coordinate by the odd-count
formula when the count is odd and by the even-count formula when it is
even, with `page_center = floor(dimension / 2)`. -/
theorem grid_planner_formulas (w h : Nat) (g : MarkerGrid)
    (hp : plan w h = Except.ok g) :
    g.columns = count_axis_spec w test_size test_distance 6 ∧
    g.rows = count_axis_spec h test_size test_distance 6 ∧
    g.half_columns = half_spec g.columns ∧
    g.half_rows = half_spec g.rows ∧
    g.start_x = (if g.columns % 2 = 1
      then start_odd_spec w test_size test_distance g.half_columns
      else start_even_spec w test_size test_distance g.half_columns) ∧
    g.start_y = (if g.rows % 2 = 1
      then start_odd_spec h test_size test_distance g.half_rows
      else start_even_spec h test_size test_distance g.half_rows) := by
  obtain ⟨hc, hr, hhc, hhr, hsx, hsy⟩ := plan_ok_fields w h g hp
  refine ⟨?_, ?_, ?_, ?_, ?_, ?_⟩
  · rw [hc]; rfl
  · rw [hr]; rfl
  · rw [hhc, hc]; rfl
  · rw [hhr, hr]; rfl
  · rw [hhc, hc]
    rcases start_axis_ok_cases w g.start_x hsx with ⟨hodd, hval⟩ | ⟨heven, _, hval⟩
    · rw [if_pos hodd]; exact hval
    · rw [if_neg (by omega)]; exact hval
  · rw [hhr, hr]
    rcases start_axis_ok_cases h g.start_y hsy with ⟨hodd, hval⟩ | ⟨heven, _, hval⟩
    · rw [if_pos hodd]; exact hval
    · rw [if_neg (by omega)]; exact hval

/-- C1 witness: the planner formulas evaluated on the 700×700 page. -/
theorem grid_planner_formulas_witness :
    square_grid.columns = count_axis_spec 700 test_size test_distance 6 ∧
    square_grid.rows = count_axis_spec 700 test_size test_distance 6 ∧
    square_grid.half_columns = half_spec square_grid.columns ∧
    square_grid.half_rows = half_spec square_grid.rows ∧
    square_grid.start_x = (if square_grid.columns % 2 = 1
      then start_odd_spec 700 test_size test_distance square_grid.half_columns
      else start_even_spec 700 test_size test_distance square_grid.half_columns) ∧
    square_grid.start_y = (if square_grid.rows % 2 = 1
      then start_odd_spec 700 test_size test_distance square_grid.half_rows
      else start_even_spec 700 test_size test_distance square_grid.half_rows) :=
  grid_planner_formulas 700 700 square_grid plan_700_700

/-- C2: for every in-range grid index, the back-page marker position minus
the front-page marker position is exactly the integer
`(c - half_columns, r - half_rows)`, per axis independently. -/
theorem back_offset_linear (w h : Nat) (g : MarkerGrid)
    (hp : plan w h = Except.ok g) (c r : Int)
    (hc0 : 0 ≤ c) (hc1 : c < g.columns) (hr0 : 0 ≤ r) (hr1 : r < g.rows) :
    back_element g.start_x c g.half_columns - front_element g.start_x c
      = ((c - g.half_columns : Int) : ℚ) ∧
    back_element g.start_y r g.half_rows - front_element g.start_y r
      = ((r - g.half_rows : Int) : ℚ) := by
  constructor
  · unfold back_element front_element; push_cast; ring
  · unfold back_element front_element; push_cast; ring

/-- C2 witness: the back-offset law at index (0, 0) of the 700×700 grid. -/
theorem back_offset_linear_witness :
    back_element square_grid.start_x 0 square_grid.half_columns
        - front_element square_grid.start_x 0
      = ((0 - square_grid.half_columns : Int) : ℚ) ∧
    back_element square_grid.start_y 0 square_grid.half_rows
        - front_element square_grid.start_y 0
      = ((0 - square_grid.half_rows : Int) : ℚ) :=
  back_offset_linear 700 700 square_grid plan_700_700 0 0
    (by decide) (by decide) (by decide) (by decide)

/-- C3 counterexample: for a 1000×100 page the row count is -5 ≤ 0, yet
the run does not fail: the iteration succeeds and silently renders a grid
with no markers at all (the plan succeeds and both marker op lists are
empty). -/
theorem guard_claim_counterexample :
    matrix_size 100 ≤ 0 ∧
    (process letter_ps { width := 1000, height := 100, data := 0 }).isOk = true ∧
    (plan 1000 100).map front_ops = Except.ok [] ∧
    (plan 1000 100).map back_ops = Except.ok [] := by
  refine ⟨by decide, by rfl, by rfl, by rfl⟩

/-- C3 amended: the failure is raised exactly when the count is even and
non-positive, and its message reports only the received count (neither
the axis nor the paper size); an odd non-positive count is not rejected
(the odd-branch start formula is returned and the grid renders empty). -/
theorem guard_even_only (d : Nat) :
    start_axis d =
      (if matrix_size d % 2 = 0 ∧ matrix_size d ≤ 0 then
        Except.error (err_msg (matrix_size d))
      else if matrix_size d % 2 = 1 then
        Except.ok (start_odd_spec d test_size test_distance
          (matrix_half_size (matrix_size d)))
      else
        Except.ok (start_even_spec d test_size test_distance
          (matrix_half_size (matrix_size d)))) := by
  unfold start_axis
  by_cases h1 : matrix_size d % 2 > 0
  · rw [if_pos h1, if_neg (by omega : ¬(matrix_size d % 2 = 0 ∧ matrix_size d ≤ 0)),
      if_pos (by omega : matrix_size d % 2 = 1)]
    rfl
  · rw [if_neg h1]
    by_cases hle : matrix_size d ≤ 0
    · rw [if_pos hle, if_pos ⟨by omega, hle⟩]
    · rw [if_neg hle, if_neg (by omega : ¬(matrix_size d % 2 = 0 ∧ matrix_size d ≤ 0)),
        if_neg (by omega : ¬matrix_size d % 2 = 1)]
      rfl

/-- C5: along the centre column the back marker's x-position equals the
front marker's x-position, and along the centre row the y-positions
coincide; in particular front and back coincide at the crosshair. -/
theorem crosshair_offset_zero (w h : Nat) (g : MarkerGrid)
    (hp : plan w h = Except.ok g) :
    back_element g.start_x g.half_columns g.half_columns
      = front_element g.start_x g.half_columns ∧
    back_element g.start_y g.half_rows g.half_rows
      = front_element g.start_y g.half_rows := by
  constructor
  · unfold back_element; simp
  · unfold back_element; simp

/-- C5 witness: crosshair coincidence on the 700×700 grid. -/
theorem crosshair_offset_zero_witness :
    back_element square_grid.start_x square_grid.half_columns square_grid.half_columns
      = front_element square_grid.start_x square_grid.half_columns ∧
    back_element square_grid.start_y square_grid.half_rows square_grid.half_rows
      = front_element square_grid.start_y square_grid.half_rows :=
  crosshair_offset_zero 700 700 square_grid plan_700_700

/-- C7: a successful iteration produces the deterministic path
`calibration/<papersize>_calibration.pdf` and a document whose first page
is the front surface and whose second page is the back surface rotated
180°, at 300 DPI, chroma subsampling 0 and quality 100; saving replaces
whatever the filesystem previously held at that path. -/
theorem composer_output (ps : PaperSize) (t : Image) (g : MarkerGrid)
    (p : String) (d : Document) (fs : FileSystem)
    (hg : plan (orient t).width (orient t).height = Except.ok g)
    (hp : process ps t = Except.ok (p, d)) :
    p = "calibration/" ++ ps.value ++ "_calibration.pdf" ∧
    d.pages = [PageOut.plain (front_surface (orient t) g),
               PageOut.rotated180 (back_surface (orient t) g)] ∧
    d.resolution = 300 ∧ d.subsampling = 0 ∧ d.quality = 100 ∧
    save fs p d p = some d := by
  unfold process at hp
  rw [hg] at hp
  cases hp
  refine ⟨rfl, rfl, rfl, rfl, rfl, ?_⟩
  unfold save
  rw [if_pos rfl]

/-- C7 witness: the composed output for the 700×700 template. -/
theorem composer_output_witness :
    "calibration/letter_calibration.pdf"
        = "calibration/" ++ letter_ps.value ++ "_calibration.pdf" ∧
    square_doc.pages
        = [PageOut.plain (front_surface (orient square_template) square_grid),
           PageOut.rotated180 (back_surface (orient square_template) square_grid)] ∧
    square_doc.resolution = 300 ∧ square_doc.subsampling = 0 ∧
    square_doc.quality = 100 ∧
    save empty_fs "calibration/letter_calibration.pdf" square_doc
        "calibration/letter_calibration.pdf" = some square_doc :=
  composer_output letter_ps square_template square_grid
    "calibration/letter_calibration.pdf" square_doc empty_fs
    plan_700_700 process_square_eval

/-- C8: the code contradicts its own guard message
("matrix_size must be greater than 0"): a 1100×150 page has row count
-5 ≤ 0, yet the iteration succeeds and composes a document, while the
guard does fire for an even non-positive count (a 50-pixel axis). -/
theorem matrix_guard_code_bug :
    matrix_size 150 ≤ 0 ∧ matrix_size 150 % 2 = 1 ∧
    (process { value := "a4" } { width := 1100, height := 150, data := 0 }).isOk
      = true ∧
    start_axis 50 = Except.error (err_msg (-6)) := by
  refine ⟨by decide, by decide, by rfl, by rfl⟩

end Calibration
